import Mathlib

/-!
Shallow embedding of `salt/states/netacl.py`: the `netacl` state module, a thin
adapter exposing three entry points (`term`, `filter`, `managed`) that normalise
default arguments, forward them to the execution-module collaborators
(`netacl.load_term_config`, `netacl.load_filter_config`,
`netacl.load_policy_config`) and reshape the returned dictionary into a status
record via `salt.utils.napalm.default_ret` / `loaded_ret`.

Python values are embedded as the inductive `PyVal` with Python truthiness.
Each entry point is embedded as a pure Lean function from an invocation context
(the value of the global test option and the three collaborators) and its
arguments to the returned status record together with the trace of collaborator
calls it performs.
-/

/-- Embedding of the Python values that flow through this module: `None`,
booleans, integers, strings, lists, and string-keyed dictionaries. -/
inductive PyVal where
  | none
  | bool (b : Bool)
  | int (n : Int)
  | str (s : String)
  | list (xs : List PyVal)
  | dict (kvs : List (String × PyVal))

/-- Python truthiness: `None`, `False`, `0`, the empty string, the empty list
and the empty dict are falsy; everything else is truthy. -/
def PyVal.truthy : PyVal → Bool
  | PyVal.none => false
  | PyVal.bool b => b
  | PyVal.int n => n != 0
  | PyVal.str s => !s.isEmpty
  | PyVal.list xs => !xs.isEmpty
  | PyVal.dict kvs => !kvs.isEmpty

/-- Embedding of the Python expression `x or y`: the first operand when it is
truthy, the second operand otherwise. -/
def pyOr (x y : PyVal) : PyVal :=
  if x.truthy then x else y

/-- Embedding of `d.get(k, dflt)` on a dictionary value. -/
def pyGet (d : PyVal) (k : String) (dflt : PyVal) : PyVal :=
  match d with
  | PyVal.dict kvs =>
    match kvs.find? (fun kv => kv.fst == k) with
    | some kv => kv.snd
    | Option.none => dflt
  | _ => dflt

/-- Coercion of a Python value to a string for the comment field: a string is
taken as-is, anything else collapses to the empty string. -/
def pyStr : PyVal → String
  | PyVal.str s => s
  | _ => ""

/-- The `changes` portion of the uniform result record: an optional diff and,
in debug mode, the optional raw loaded configuration. -/
structure Changes where
  diff : Option PyVal
  loaded : Option PyVal

/-- The uniform state result record: exactly the fields
name, result (boolean or null, embedded as `Option Bool` with `Option.none` as
null), comment (a string) and changes. -/
structure StateRet where
  name : PyVal
  result : Option Bool
  comment : String
  changes : Changes

/-- Modelled from the spec: `salt.utils.napalm.default_ret` belongs to this
repository but is not included under src/. Per the spec it builds the initial
uniform result record for the given state name, with a false result, an empty
comment and no changes. -/
def default_ret (name : PyVal) : StateRet :=
  StateRet.mk name (some false) "" (Changes.mk Option.none Option.none)

/-- Modelled from the spec: `salt.utils.napalm.loaded_ret` belongs to this
repository but is not included under src/. Per the spec it reshapes the
dictionary returned by the collaborator into the uniform result record:
a failed load keeps a false result with the collaborator comment; an
already-configured device is a no-op with a true result and empty diff; a
change in test mode yields a null result and states that the computed changes
were discarded; a committed change yields a true result with the diff; debug
mode additionally exposes the raw configuration under the loaded key. -/
def loaded_ret (ret : StateRet) (loaded : PyVal) (test : PyVal) (debug : PyVal) : StateRet :=
  let comment := pyStr (pyGet loaded ("comment") (PyVal.str ("")))
  if !(pyGet loaded ("result") (PyVal.bool false)).truthy then
    StateRet.mk ret.name (some false) comment ret.changes
  else
    let loadedCfg :=
      if debug.truthy then some (pyGet loaded ("loaded_config") PyVal.none) else Option.none
    if (pyGet loaded ("already_configured") (PyVal.bool false)).truthy then
      StateRet.mk ret.name (some true) comment (Changes.mk Option.none loadedCfg)
    else
      let diff := pyGet loaded ("diff") PyVal.none
      if test.truthy then
        StateRet.mk ret.name Option.none ("Testing mode: Configuration discarded.")
          (Changes.mk (some diff) loadedCfg)
      else
        StateRet.mk ret.name (some true) comment (Changes.mk (some diff) loadedCfg)

/-- The arguments of `netacl.term`, in source order. In the source every
argument but the first three is optional; the embedding always passes all of
them explicitly (the Python defaults are concrete `PyVal` values the caller can
supply). The trailing keyword arguments `**term_fields` are an association
list. -/
structure TermArgs where
  name : PyVal
  filter_name : PyVal
  term_name : PyVal
  filter_options : PyVal
  pillar_key : PyVal
  pillarenv : PyVal
  saltenv : PyVal
  merge_pillar : PyVal
  revision_id : PyVal
  revision_no : PyVal
  revision_date : PyVal
  revision_date_format : PyVal
  test : PyVal
  commit : PyVal
  debug : PyVal
  source_service : PyVal
  destination_service : PyVal
  term_fields : List (String × PyVal)

/-- The arguments of `netacl.filter`, in source order. -/
structure FilterArgs where
  name : PyVal
  filter_name : PyVal
  filter_options : PyVal
  terms : PyVal
  pillar_key : PyVal
  pillarenv : PyVal
  saltenv : PyVal
  merge_pillar : PyVal
  only_lower_merge : PyVal
  revision_id : PyVal
  revision_no : PyVal
  revision_date : PyVal
  revision_date_format : PyVal
  test : PyVal
  commit : PyVal
  debug : PyVal

/-- The arguments of `netacl.managed`, in source order. -/
structure ManagedArgs where
  name : PyVal
  filters : PyVal
  pillar_key : PyVal
  pillarenv : PyVal
  saltenv : PyVal
  merge_pillar : PyVal
  only_lower_merge : PyVal
  revision_id : PyVal
  revision_no : PyVal
  revision_date : PyVal
  revision_date_format : PyVal
  test : PyVal
  commit : PyVal
  debug : PyVal

/-- The argument record handed to `__salt__['netacl.load_term_config']`. -/
structure LoadTermCall where
  filter_name : PyVal
  term_name : PyVal
  filter_options : PyVal
  pillar_key : PyVal
  pillarenv : PyVal
  saltenv : PyVal
  merge_pillar : PyVal
  revision_id : PyVal
  revision_no : PyVal
  revision_date : PyVal
  revision_date_format : PyVal
  source_service : PyVal
  destination_service : PyVal
  test : PyVal
  commit : PyVal
  debug : PyVal
  term_fields : List (String × PyVal)

/-- The argument record handed to `__salt__['netacl.load_filter_config']`. -/
structure LoadFilterCall where
  filter_name : PyVal
  filter_options : PyVal
  terms : PyVal
  pillar_key : PyVal
  pillarenv : PyVal
  saltenv : PyVal
  merge_pillar : PyVal
  only_lower_merge : PyVal
  revision_id : PyVal
  revision_no : PyVal
  revision_date : PyVal
  revision_date_format : PyVal
  test : PyVal
  commit : PyVal
  debug : PyVal

/-- The argument record handed to `__salt__['netacl.load_policy_config']`. -/
structure LoadPolicyCall where
  filters : PyVal
  pillar_key : PyVal
  pillarenv : PyVal
  saltenv : PyVal
  merge_pillar : PyVal
  only_lower_merge : PyVal
  revision_id : PyVal
  revision_no : PyVal
  revision_date : PyVal
  revision_date_format : PyVal
  test : PyVal
  commit : PyVal
  debug : PyVal

/-- One collaborator invocation, for the call trace of an entry point. -/
inductive CollabCall where
  | loadTerm (c : LoadTermCall)
  | loadFilter (c : LoadFilterCall)
  | loadPolicy (c : LoadPolicyCall)

/-- The invocation context of the state module: the value of
`__opts__['test']` and the three execution-module collaborators reachable
through `__salt__`, each mapping its argument record to the loaded dictionary
it returns. -/
structure Ctx where
  opts_test : PyVal
  load_term_config : LoadTermCall → PyVal
  load_filter_config : LoadFilterCall → PyVal
  load_policy_config : LoadPolicyCall → PyVal

/-- The argument record `netacl.term` builds for its collaborator:
`test` becomes `__opts__['test'] or test`, a falsy `filter_options` is
replaced by the empty list, `revision_id` falls back to `name` when falsy, and
every other argument is forwarded as received. -/
def termCall (ctx : Ctx) (a : TermArgs) : LoadTermCall :=
  let test := pyOr ctx.opts_test a.test
  let filter_options := if a.filter_options.truthy then a.filter_options else PyVal.list []
  LoadTermCall.mk a.filter_name a.term_name filter_options a.pillar_key a.pillarenv
    a.saltenv a.merge_pillar
    (if a.revision_id.truthy then a.revision_id else a.name)
    a.revision_no a.revision_date a.revision_date_format
    a.source_service a.destination_service test a.commit a.debug a.term_fields

/-- Embedding of `netacl.term`: builds the collaborator argument record, calls
`netacl.load_term_config` once and reshapes the loaded dictionary through
`loaded_ret` over `default_ret`; the second component is the trace of
collaborator calls performed. -/
def term (ctx : Ctx) (a : TermArgs) : StateRet × List CollabCall :=
  let ret := default_ret a.name
  let call := termCall ctx a
  let loaded := ctx.load_term_config call
  (loaded_ret ret loaded call.test a.debug, [CollabCall.loadTerm call])

/-- The argument record `netacl.filter` builds for its collaborator:
`test` becomes `__opts__['test'] or test`, falsy `filter_options` and `terms`
are replaced by the empty list and the empty dict, `revision_id` falls back to
`name` when falsy, and every other argument is forwarded as received. -/
def filterCall (ctx : Ctx) (a : FilterArgs) : LoadFilterCall :=
  let test := pyOr ctx.opts_test a.test
  let filter_options := if a.filter_options.truthy then a.filter_options else PyVal.list []
  let terms := if a.terms.truthy then a.terms else PyVal.dict []
  LoadFilterCall.mk a.filter_name filter_options terms a.pillar_key a.pillarenv
    a.saltenv a.merge_pillar a.only_lower_merge
    (if a.revision_id.truthy then a.revision_id else a.name)
    a.revision_no a.revision_date a.revision_date_format test a.commit a.debug

/-- Embedding of `netacl.filter`: builds the collaborator argument record,
calls `netacl.load_filter_config` once and reshapes the loaded dictionary
through `loaded_ret` over `default_ret`; the second component is the trace of
collaborator calls performed. -/
def filter (ctx : Ctx) (a : FilterArgs) : StateRet × List CollabCall :=
  let ret := default_ret a.name
  let call := filterCall ctx a
  let loaded := ctx.load_filter_config call
  (loaded_ret ret loaded call.test a.debug, [CollabCall.loadFilter call])

/-- The argument record `netacl.managed` builds for its collaborator:
`test` becomes `__opts__['test'] or test`, a falsy `filters` is replaced by
the empty dict, `revision_id` falls back to `name` when falsy, and every other
argument is forwarded as received. -/
def managedCall (ctx : Ctx) (a : ManagedArgs) : LoadPolicyCall :=
  let test := pyOr ctx.opts_test a.test
  let filters := if a.filters.truthy then a.filters else PyVal.dict []
  LoadPolicyCall.mk filters a.pillar_key a.pillarenv a.saltenv a.merge_pillar
    a.only_lower_merge
    (if a.revision_id.truthy then a.revision_id else a.name)
    a.revision_no a.revision_date a.revision_date_format test a.commit a.debug

/-- Embedding of `netacl.managed`: builds the collaborator argument record,
calls `netacl.load_policy_config` once and reshapes the loaded dictionary
through `loaded_ret` over `default_ret`; the second component is the trace of
collaborator calls performed. -/
def managed (ctx : Ctx) (a : ManagedArgs) : StateRet × List CollabCall :=
  let ret := default_ret a.name
  let call := managedCall ctx a
  let loaded := ctx.load_policy_config call
  (loaded_ret ret loaded call.test a.debug, [CollabCall.loadPolicy call])

/-- Embedding of the module constant `__virtualname__ = 'netacl'`. -/
def virtualname : String := "netacl"

/-- The message returned by `__virtual__` when a dependency is missing: the
Python string literal spans two source lines joined by a backslash
continuation, so the indentation of the second line is part of the string. -/
def virtualErrMsg : String :=
  "The netacl state cannot be loaded:                 Please install capirca and napalm."

/-- The module-level names of `netacl.py`, all bound once at import time:
the logger, the two dependency flags set by the try/except import blocks, and
the virtual name. -/
structure ModuleGlobals where
  log : String
  HAS_CAPIRCA : Bool
  HAS_NAPALM : Bool
  virtualNameG : String

/-- Import-time initialisation of the module globals: `log` is the logger for
the file, `HAS_CAPIRCA` and `HAS_NAPALM` record whether the `aclgen` and
`napalm_base` imports succeeded, and the virtual name is the constant
`netacl`. -/
def moduleInit (logName : String) (capircaImportOk napalmImportOk : Bool) : ModuleGlobals :=
  ModuleGlobals.mk logName capircaImportOk napalmImportOk virtualname

/-- Embedding of `__virtual__`: the virtual name when both dependency flags
are set, otherwise the pair of `False` and the explanatory message. -/
def virtual (g : ModuleGlobals) : Sum String (Bool × String) :=
  if g.HAS_CAPIRCA && g.HAS_NAPALM then Sum.inl g.virtualNameG
  else Sum.inr (false, virtualErrMsg)

/-- One invocation of an entry point of the state module. -/
inductive Invocation where
  | termInv (a : TermArgs)
  | filterInv (a : FilterArgs)
  | managedInv (a : ManagedArgs)

/-- Running one invocation against the module globals: the entry points read
and write no module-level name, so the globals component of the outcome is the
incoming globals, and the result only depends on the context and the
arguments. -/
def runInvocation (g : ModuleGlobals) (ctx : Ctx) (inv : Invocation) :
    (StateRet × List CollabCall) × ModuleGlobals :=
  match inv with
  | Invocation.termInv a => (term ctx a, g)
  | Invocation.filterInv a => (filter ctx a, g)
  | Invocation.managedInv a => (managed ctx a, g)

/-- The module globals left after running a sequence of invocations. -/
def runSequence (g : ModuleGlobals) (ctx : Ctx) (invs : List Invocation) : ModuleGlobals :=
  invs.foldl (fun g0 i => (runInvocation g0 ctx i).snd) g

/-- Dictionary merge with the explicit definition winning over the store
value; on non-dictionaries the explicit definition wins outright. -/
def pyMerge (storeValue explicitDef : PyVal) : PyVal :=
  match storeValue, explicitDef with
  | PyVal.dict b, PyVal.dict e =>
    PyVal.dict (e ++ b.filter (fun kv => (e.find? (fun kv2 => kv2.fst == kv.fst)).isNone))
  | _, _ => explicitDef

/-- Modelled from the spec: the Policy Source Resolver lives in the execution
module collaborators (`netacl.load_term_config`, `load_filter_config`,
`load_policy_config`), which belong to this repository but are not included
under src/. Per the spec: a non-empty explicit definition with merging
disabled is used as-is and the store is not consulted; with merging enabled
the store value is fetched and merged with the explicit definition; an empty
explicit definition falls back entirely to the store value. The boolean
component records whether the store was consulted. -/
def resolveDefinition (explicitDef : PyVal) (merge_pillar : Bool) (storeValue : PyVal) :
    PyVal × Bool :=
  if explicitDef.truthy && !merge_pillar then (explicitDef, false)
  else if merge_pillar then (pyMerge storeValue explicitDef, true)
  else (storeValue, true)

/-- `a` with the `filter_options` argument replaced. -/
def TermArgs.withFilterOptions (a : TermArgs) (v : PyVal) : TermArgs :=
  TermArgs.mk a.name a.filter_name a.term_name v a.pillar_key a.pillarenv a.saltenv
    a.merge_pillar a.revision_id a.revision_no a.revision_date a.revision_date_format
    a.test a.commit a.debug a.source_service a.destination_service a.term_fields

/-- `a` with the `filter_options` argument replaced. -/
def FilterArgs.withFilterOptions (a : FilterArgs) (v : PyVal) : FilterArgs :=
  FilterArgs.mk a.name a.filter_name v a.terms a.pillar_key a.pillarenv a.saltenv
    a.merge_pillar a.only_lower_merge a.revision_id a.revision_no a.revision_date
    a.revision_date_format a.test a.commit a.debug

/-- `a` with the `terms` argument replaced. -/
def FilterArgs.withTerms (a : FilterArgs) (v : PyVal) : FilterArgs :=
  FilterArgs.mk a.name a.filter_name a.filter_options v a.pillar_key a.pillarenv a.saltenv
    a.merge_pillar a.only_lower_merge a.revision_id a.revision_no a.revision_date
    a.revision_date_format a.test a.commit a.debug

/-- `a` with the `filters` argument replaced. -/
def ManagedArgs.withFilters (a : ManagedArgs) (v : PyVal) : ManagedArgs :=
  ManagedArgs.mk a.name v a.pillar_key a.pillarenv a.saltenv a.merge_pillar
    a.only_lower_merge a.revision_id a.revision_no a.revision_date
    a.revision_date_format a.test a.commit a.debug

/-- A context whose global test option is set, with collaborators returning an
empty dictionary. -/
def ctxTestOn : Ctx :=
  Ctx.mk (PyVal.bool true) (fun _ => PyVal.dict []) (fun _ => PyVal.dict [])
    (fun _ => PyVal.dict [])

/-- A context whose global test option is unset, with collaborators returning
an empty dictionary. -/
def ctxTestOff : Ctx :=
  Ctx.mk (PyVal.bool false) (fun _ => PyVal.dict []) (fun _ => PyVal.dict [])
    (fun _ => PyVal.dict [])

/-- Concrete `term` arguments mirroring the Python defaults, with a falsy
`revision_id` and `filter_options`. -/
def sampleTermArgs : TermArgs :=
  TermArgs.mk (PyVal.str ("my-term-state")) (PyVal.str ("block-icmp")) (PyVal.str ("first-term"))
    PyVal.none (PyVal.str ("acl")) PyVal.none PyVal.none (PyVal.bool false) PyVal.none
    PyVal.none (PyVal.bool true) (PyVal.str ("%Y/%m/%d")) (PyVal.bool false)
    (PyVal.bool true) (PyVal.bool false) PyVal.none PyVal.none
    [("protocol", PyVal.list [PyVal.str ("icmp")]), ("action", PyVal.str ("reject"))]

/-- Concrete `term` arguments with a truthy `revision_id` and truthy
`filter_options`. -/
def sampleTermArgsRev : TermArgs :=
  TermArgs.mk (PyVal.str ("my-term-state")) (PyVal.str ("block-icmp")) (PyVal.str ("first-term"))
    (PyVal.list [PyVal.str ("inet6")]) (PyVal.str ("acl")) PyVal.none PyVal.none
    (PyVal.bool false) (PyVal.str ("rev-7")) PyVal.none (PyVal.bool true)
    (PyVal.str ("%Y/%m/%d")) (PyVal.bool false) (PyVal.bool true) (PyVal.bool false)
    PyVal.none PyVal.none []

/-- Concrete `filter` arguments mirroring the Python defaults, with falsy
containers and a falsy `revision_id`. -/
def sampleFilterArgs : FilterArgs :=
  FilterArgs.mk (PyVal.str ("my-filter-state")) (PyVal.str ("my-filter")) PyVal.none PyVal.none
    (PyVal.str ("acl")) PyVal.none PyVal.none (PyVal.bool false) (PyVal.bool false)
    PyVal.none PyVal.none (PyVal.bool true) (PyVal.str ("%Y/%m/%d")) (PyVal.bool false)
    (PyVal.bool true) (PyVal.bool false)

/-- Concrete `filter` arguments with truthy containers and a truthy
`revision_id`. -/
def sampleFilterArgsRev : FilterArgs :=
  FilterArgs.mk (PyVal.str ("my-filter-state")) (PyVal.str ("my-filter"))
    (PyVal.list [PyVal.str ("inet6")])
    (PyVal.dict [("my-other-term", PyVal.dict [("action", PyVal.str ("accept"))])])
    (PyVal.str ("acl")) PyVal.none PyVal.none (PyVal.bool false) (PyVal.bool false)
    (PyVal.str ("rev-5")) PyVal.none (PyVal.bool true) (PyVal.str ("%Y/%m/%d"))
    (PyVal.bool false) (PyVal.bool true) (PyVal.bool false)

/-- Concrete `managed` arguments mirroring the Python defaults, with a falsy
`filters` and a falsy `revision_id`. -/
def sampleManagedArgs : ManagedArgs :=
  ManagedArgs.mk (PyVal.str ("netacl-example")) PyVal.none (PyVal.str ("acl")) PyVal.none
    PyVal.none (PyVal.bool false) (PyVal.bool false) PyVal.none PyVal.none
    (PyVal.bool true) (PyVal.str ("%Y/%m/%d")) (PyVal.bool false) (PyVal.bool true)
    (PyVal.bool false)

/-- Concrete `managed` arguments with a truthy `filters` and a truthy
`revision_id`. -/
def sampleManagedArgsRev : ManagedArgs :=
  ManagedArgs.mk (PyVal.str ("netacl-example"))
    (PyVal.dict [("block-icmp", PyVal.dict [("first-term", PyVal.dict [])])])
    (PyVal.str ("acl")) PyVal.none PyVal.none (PyVal.bool false) (PyVal.bool false)
    (PyVal.str ("rev-2")) PyVal.none (PyVal.bool true) (PyVal.str ("%Y/%m/%d"))
    (PyVal.bool false) (PyVal.bool true) (PyVal.bool false)

theorem loaded_ret_name (r : StateRet) (l t d : PyVal) : (loaded_ret r l t d).name = r.name := by
  unfold loaded_ret
  dsimp only
  split_ifs <;> rfl

theorem runInvocation_snd (g : ModuleGlobals) (ctx : Ctx) (i : Invocation) :
    (runInvocation g ctx i).snd = g := by
  cases i <;> rfl

theorem runSequence_id (g : ModuleGlobals) (ctx : Ctx) (invs : List Invocation) :
    runSequence g ctx invs = g := by
  induction invs generalizing g with
  | nil => rfl
  | cons i is ih =>
    show runSequence (runInvocation g ctx i).snd ctx is = g
    rw [runInvocation_snd]
    exact ih g

/-- Claim C1: in every invocation of `term`, `filter` or `managed`, when the
global test option of the invoking context is set, the test flag forwarded to
the load-config collaborator is truthy regardless of the test argument (and of
commit); when the global option is unset, the forwarded test flag equals the
test argument of the caller. -/
theorem netacl_global_test_override (ctx : Ctx) (a1 : TermArgs) (a2 : FilterArgs)
    (a3 : ManagedArgs) :
    (ctx.opts_test.truthy = true →
      ((termCall ctx a1).test.truthy = true ∧
       (filterCall ctx a2).test.truthy = true ∧
       (managedCall ctx a3).test.truthy = true)) ∧
    (ctx.opts_test.truthy = false →
      ((termCall ctx a1).test = a1.test ∧
       (filterCall ctx a2).test = a2.test ∧
       (managedCall ctx a3).test = a3.test)) := by
  constructor <;> intro h <;>
    simp [termCall, filterCall, managedCall, pyOr, h]

theorem netacl_global_test_override_w :
    (termCall ctxTestOn sampleTermArgs).test.truthy = true ∧
    (termCall ctxTestOff sampleTermArgs).test = sampleTermArgs.test :=
  ⟨((netacl_global_test_override ctxTestOn sampleTermArgs sampleFilterArgs
      sampleManagedArgs).1 rfl).1,
   ((netacl_global_test_override ctxTestOff sampleTermArgs sampleFilterArgs
      sampleManagedArgs).2 rfl).1⟩

/-- Claim C2: in every invocation of `term`, `filter` or `managed`, a falsy
`revision_id` argument is forwarded to the collaborator as the `name` argument
of the invocation, and a truthy `revision_id` is forwarded unchanged. -/
theorem netacl_revision_id_default (ctx : Ctx) (a1 : TermArgs) (a2 : FilterArgs)
    (a3 : ManagedArgs) :
    (a1.revision_id.truthy = false → (termCall ctx a1).revision_id = a1.name) ∧
    (a1.revision_id.truthy = true → (termCall ctx a1).revision_id = a1.revision_id) ∧
    (a2.revision_id.truthy = false → (filterCall ctx a2).revision_id = a2.name) ∧
    (a2.revision_id.truthy = true → (filterCall ctx a2).revision_id = a2.revision_id) ∧
    (a3.revision_id.truthy = false → (managedCall ctx a3).revision_id = a3.name) ∧
    (a3.revision_id.truthy = true → (managedCall ctx a3).revision_id = a3.revision_id) := by
  refine ⟨?_, ?_, ?_, ?_, ?_, ?_⟩ <;> intro h <;>
    simp [termCall, filterCall, managedCall, h]

theorem netacl_revision_id_default_w :
    (termCall ctxTestOff sampleTermArgs).revision_id = sampleTermArgs.name ∧
    (termCall ctxTestOff sampleTermArgsRev).revision_id = sampleTermArgsRev.revision_id :=
  ⟨(netacl_revision_id_default ctxTestOff sampleTermArgs sampleFilterArgs
      sampleManagedArgs).1 rfl,
   (netacl_revision_id_default ctxTestOff sampleTermArgsRev sampleFilterArgs
      sampleManagedArgs).2.1 rfl⟩

/-- Claim C3: every argument of `term`, `filter` and `managed` other than
`name`, `test`, `revision_id` and the normalised containers — that is
`filter_name`, `term_name`, `pillar_key`, `pillarenv`, `saltenv`,
`merge_pillar`, `only_lower_merge` where present, `revision_no`,
`revision_date`, `revision_date_format`, `commit`, `debug`, `source_service`,
`destination_service` and the extra `term_fields` — is forwarded to the
load-config collaborator exactly as received. -/
theorem netacl_verbatim_forwarding (ctx : Ctx) (a1 : TermArgs) (a2 : FilterArgs)
    (a3 : ManagedArgs) :
    ((termCall ctx a1).filter_name = a1.filter_name ∧
     (termCall ctx a1).term_name = a1.term_name ∧
     (termCall ctx a1).pillar_key = a1.pillar_key ∧
     (termCall ctx a1).pillarenv = a1.pillarenv ∧
     (termCall ctx a1).saltenv = a1.saltenv ∧
     (termCall ctx a1).merge_pillar = a1.merge_pillar ∧
     (termCall ctx a1).revision_no = a1.revision_no ∧
     (termCall ctx a1).revision_date = a1.revision_date ∧
     (termCall ctx a1).revision_date_format = a1.revision_date_format ∧
     (termCall ctx a1).commit = a1.commit ∧
     (termCall ctx a1).debug = a1.debug ∧
     (termCall ctx a1).source_service = a1.source_service ∧
     (termCall ctx a1).destination_service = a1.destination_service ∧
     (termCall ctx a1).term_fields = a1.term_fields) ∧
    ((filterCall ctx a2).filter_name = a2.filter_name ∧
     (filterCall ctx a2).pillar_key = a2.pillar_key ∧
     (filterCall ctx a2).pillarenv = a2.pillarenv ∧
     (filterCall ctx a2).saltenv = a2.saltenv ∧
     (filterCall ctx a2).merge_pillar = a2.merge_pillar ∧
     (filterCall ctx a2).only_lower_merge = a2.only_lower_merge ∧
     (filterCall ctx a2).revision_no = a2.revision_no ∧
     (filterCall ctx a2).revision_date = a2.revision_date ∧
     (filterCall ctx a2).revision_date_format = a2.revision_date_format ∧
     (filterCall ctx a2).commit = a2.commit ∧
     (filterCall ctx a2).debug = a2.debug) ∧
    ((managedCall ctx a3).pillar_key = a3.pillar_key ∧
     (managedCall ctx a3).pillarenv = a3.pillarenv ∧
     (managedCall ctx a3).saltenv = a3.saltenv ∧
     (managedCall ctx a3).merge_pillar = a3.merge_pillar ∧
     (managedCall ctx a3).only_lower_merge = a3.only_lower_merge ∧
     (managedCall ctx a3).revision_no = a3.revision_no ∧
     (managedCall ctx a3).revision_date = a3.revision_date ∧
     (managedCall ctx a3).revision_date_format = a3.revision_date_format ∧
     (managedCall ctx a3).commit = a3.commit ∧
     (managedCall ctx a3).debug = a3.debug) := by
  refine ⟨⟨?_, ?_, ?_, ?_, ?_, ?_, ?_, ?_, ?_, ?_, ?_, ?_, ?_, ?_⟩,
    ⟨?_, ?_, ?_, ?_, ?_, ?_, ?_, ?_, ?_, ?_, ?_⟩,
    ⟨?_, ?_, ?_, ?_, ?_, ?_, ?_, ?_, ?_, ?_⟩⟩ <;> rfl

/-- Claim C4: a falsy `filter_options` is replaced by the empty list before
forwarding, a falsy `terms` argument of `filter` by the empty dict, and a
falsy `filters` argument of `managed` by the empty dict; consequently an
invocation passing the omitted-argument default and one passing the explicit
empty container produce identical results and collaborator calls. -/
theorem netacl_default_normalisation (ctx : Ctx) (a1 : TermArgs) (a2 : FilterArgs)
    (a3 : ManagedArgs) :
    (a1.filter_options.truthy = false → (termCall ctx a1).filter_options = PyVal.list []) ∧
    (a2.filter_options.truthy = false → (filterCall ctx a2).filter_options = PyVal.list []) ∧
    (a2.terms.truthy = false → (filterCall ctx a2).terms = PyVal.dict []) ∧
    (a3.filters.truthy = false → (managedCall ctx a3).filters = PyVal.dict []) ∧
    term ctx (a1.withFilterOptions PyVal.none) = term ctx (a1.withFilterOptions (PyVal.list [])) ∧
    filter ctx (a2.withFilterOptions PyVal.none) =
      filter ctx (a2.withFilterOptions (PyVal.list [])) ∧
    filter ctx (a2.withTerms PyVal.none) = filter ctx (a2.withTerms (PyVal.dict [])) ∧
    managed ctx (a3.withFilters PyVal.none) = managed ctx (a3.withFilters (PyVal.dict [])) := by
  refine ⟨?_, ?_, ?_, ?_, rfl, rfl, rfl, rfl⟩ <;> intro h <;>
    simp [termCall, filterCall, managedCall, h]

theorem netacl_default_normalisation_w :
    (termCall ctxTestOff sampleTermArgs).filter_options = PyVal.list [] ∧
    (filterCall ctxTestOff sampleFilterArgs).terms = PyVal.dict [] ∧
    (managedCall ctxTestOff sampleManagedArgs).filters = PyVal.dict [] :=
  ⟨(netacl_default_normalisation ctxTestOff sampleTermArgs sampleFilterArgs
      sampleManagedArgs).1 rfl,
   (netacl_default_normalisation ctxTestOff sampleTermArgs sampleFilterArgs
      sampleManagedArgs).2.2.1 rfl,
   (netacl_default_normalisation ctxTestOff sampleTermArgs sampleFilterArgs
      sampleManagedArgs).2.2.2.1 rfl⟩

/-- Claim C5: every invocation of `term`, `filter` and `managed` returns the
uniform result record of type `StateRet` (exactly the fields name, result as
boolean or null, comment string, and changes with optional diff and loaded
entries), obtained by reshaping the dictionary returned by its collaborator
through `loaded_ret` over `default_ret`, and its name field is the invocation
name, uniformly over all outcomes. -/
theorem netacl_result_shape (ctx : Ctx) (a1 : TermArgs) (a2 : FilterArgs)
    (a3 : ManagedArgs) :
    (term ctx a1).fst =
      loaded_ret (default_ret a1.name) (ctx.load_term_config (termCall ctx a1))
        (termCall ctx a1).test a1.debug ∧
    (term ctx a1).fst.name = a1.name ∧
    (filter ctx a2).fst =
      loaded_ret (default_ret a2.name) (ctx.load_filter_config (filterCall ctx a2))
        (filterCall ctx a2).test a2.debug ∧
    (filter ctx a2).fst.name = a2.name ∧
    (managed ctx a3).fst =
      loaded_ret (default_ret a3.name) (ctx.load_policy_config (managedCall ctx a3))
        (managedCall ctx a3).test a3.debug ∧
    (managed ctx a3).fst.name = a3.name := by
  refine ⟨rfl, ?_, rfl, ?_, rfl, ?_⟩
  · show (loaded_ret (default_ret a1.name) (ctx.load_term_config (termCall ctx a1))
      (termCall ctx a1).test a1.debug).name = a1.name
    rw [loaded_ret_name]; rfl
  · show (loaded_ret (default_ret a2.name) (ctx.load_filter_config (filterCall ctx a2))
      (filterCall ctx a2).test a2.debug).name = a2.name
    rw [loaded_ret_name]; rfl
  · show (loaded_ret (default_ret a3.name) (ctx.load_policy_config (managedCall ctx a3))
      (managedCall ctx a3).test a3.debug).name = a3.name
    rw [loaded_ret_name]; rfl

/-- Claim C6: resolving a non-empty explicit definition with merging disabled
uses exactly that definition and never consults the pillar store. -/
theorem netacl_resolver_passthrough (D storeValue : PyVal) (h : D.truthy = true) :
    resolveDefinition D false storeValue = (D, false) := by
  simp [resolveDefinition, h]

theorem netacl_resolver_passthrough_w :
    resolveDefinition (PyVal.dict [("first-term", PyVal.str ("reject"))]) false
      (PyVal.dict [("other", PyVal.int 2)]) =
    (PyVal.dict [("first-term", PyVal.str ("reject"))], false) :=
  netacl_resolver_passthrough _ _ rfl

/-- Claim C7: every invocation of `term`, `filter` and `managed` performs
exactly one collaborator call — the single load-config call it builds — for
every context and so for every outcome the collaborator reports; no retry and
no second call occurs. -/
theorem netacl_single_collaborator_call (ctx : Ctx) (a1 : TermArgs) (a2 : FilterArgs)
    (a3 : ManagedArgs) :
    (term ctx a1).snd = [CollabCall.loadTerm (termCall ctx a1)] ∧
    (filter ctx a2).snd = [CollabCall.loadFilter (filterCall ctx a2)] ∧
    (managed ctx a3).snd = [CollabCall.loadPolicy (managedCall ctx a3)] :=
  ⟨rfl, rfl, rfl⟩

/-- Claim C8: no entry point reads or writes module-level mutable state: a
sequence of invocations leaves the module globals exactly as `moduleInit` set
them, and the outcome of any invocation after an arbitrary sequence of prior
invocations equals its outcome with no prior invocation. -/
theorem netacl_no_shared_mutable_state (g : ModuleGlobals) (ctx : Ctx)
    (invs : List Invocation) (inv : Invocation) :
    runSequence g ctx invs = g ∧
    runInvocation (runSequence g ctx invs) ctx inv = runInvocation g ctx inv := by
  refine ⟨runSequence_id g ctx invs, ?_⟩
  rw [runSequence_id]

/-- Claim C9: `__virtual__` returns the module name `netacl` exactly when both
the capirca and the napalm import succeeded at load time; otherwise it returns
the pair of `False` and the explanatory message, so the entry points are never
exposed without both dependencies. -/
theorem netacl_virtual_gate (logName : String) (c n : Bool) :
    (virtual (moduleInit logName c n) = Sum.inl ("netacl") ↔ (c = true ∧ n = true)) ∧
    (¬(c = true ∧ n = true) →
      virtual (moduleInit logName c n) = Sum.inr (false, virtualErrMsg)) := by
  cases c <;> cases n <;>
    simp [virtual, moduleInit, virtualname, virtualErrMsg]

theorem netacl_virtual_gate_w :
    virtual (moduleInit ("netacl-logger") false true) = Sum.inr (false, virtualErrMsg) :=
  (netacl_virtual_gate ("netacl-logger") false true).2 (fun h => Bool.noConfusion h.1)

/-- Claim C10: no entry point alters a caller-supplied argument object: the
`term_fields` association list is forwarded exactly as received, and each
truthy container argument (`filter_options`, `terms`, `filters`) reaches the
collaborator as exactly the value the caller passed, while falsy containers
are replaced by fresh empty containers rather than modified in place, so the
caller arguments keep exactly their original contents. -/
theorem netacl_no_argument_mutation (ctx : Ctx) (a1 : TermArgs) (a2 : FilterArgs)
    (a3 : ManagedArgs) :
    (termCall ctx a1).term_fields = a1.term_fields ∧
    (a1.filter_options.truthy = true → (termCall ctx a1).filter_options = a1.filter_options) ∧
    (a2.filter_options.truthy = true →
      (filterCall ctx a2).filter_options = a2.filter_options) ∧
    (a2.terms.truthy = true → (filterCall ctx a2).terms = a2.terms) ∧
    (a3.filters.truthy = true → (managedCall ctx a3).filters = a3.filters) := by
  refine ⟨rfl, ?_, ?_, ?_, ?_⟩ <;> intro h <;>
    simp [termCall, filterCall, managedCall, h]

theorem netacl_no_argument_mutation_w :
    (termCall ctxTestOff sampleTermArgsRev).filter_options =
      sampleTermArgsRev.filter_options ∧
    (filterCall ctxTestOff sampleFilterArgsRev).terms = sampleFilterArgsRev.terms ∧
    (managedCall ctxTestOff sampleManagedArgsRev).filters = sampleManagedArgsRev.filters :=
  ⟨(netacl_no_argument_mutation ctxTestOff sampleTermArgsRev sampleFilterArgsRev
      sampleManagedArgsRev).2.1 rfl,
   (netacl_no_argument_mutation ctxTestOff sampleTermArgsRev sampleFilterArgsRev
      sampleManagedArgsRev).2.2.2.1 rfl,
   (netacl_no_argument_mutation ctxTestOff sampleTermArgsRev sampleFilterArgsRev
      sampleManagedArgsRev).2.2.2.2 rfl⟩
